import Mathlib

/-!
# Verification of the Mesos Python executor callback bridge

A shallow embedding of `src/python/native/proxy_executor.cpp`: the eight
`ProxyExecutor` driver callbacks (`registered`, `reregistered`, `disconnected`,
`launchTask`, `killTask`, `frameworkMessage`, `shutdown`, `error`).

Each callback is modelled as a function from *oracle inputs* — what the
embedded Python runtime does at each `createPythonProtobuf` and
`PyObject_CallMethod` step — and an initial interpreter state, to a final
interpreter state together with a linear trace of observable events
(lock acquisition/release, marshalling, handler invocation, `PyErr_Print`,
`driver->abort()`, `Py_XDECREF`, `cerr` logging).  The CPython API contract
that a NULL return from these functions always leaves the error indicator set
(noted in the source comments: "createPythonProtobuf will have set an
exception") is part of the model; a non-NULL call result may additionally
leave the error indicator set, as CPython permits.
-/

namespace MesosProxyExecutor

/-- A reference to an object of the embedded Python runtime, identified by a
numeric id.  Stands for a non-NULL `PyObject*`. -/
structure PyObjRef where
  id : Nat
deriving DecidableEq, Repr

/-- Detail of a pending Python error indicator (the exception that
`PyErr_Occurred` reports and `PyErr_Print` prints). -/
structure PyErrDetail where
  msg : String
deriving DecidableEq, Repr

/-- State of the embedded interpreter visible to the bridge: the pending
error indicator queried by `PyErr_Occurred()`. -/
structure PyState where
  pendingErr : Option PyErrDetail
deriving DecidableEq, Repr

/-- What the runtime does for one `createPythonProtobuf` call: either produce
an object, or return NULL having set the error indicator. -/
inductive MarshalResult where
  | ok (obj : PyObjRef)
  | fail (e : PyErrDetail)
deriving DecidableEq, Repr

/-- What the runtime does for one `PyObject_CallMethod` call: return a result;
return a result but leave the error indicator set (CPython permits this); or
return NULL with the error indicator set. -/
inductive CallResult where
  | ok (res : PyObjRef)
  | okWithErr (res : PyObjRef) (e : PyErrDetail)
  | fail (e : PyErrDetail)
deriving DecidableEq, Repr

/-- An argument passed to a handler method through `PyObject_CallMethod`:
an object reference (the `"O"` conversion) or a byte buffer built from a
pointer and a length (the `"s#"` conversion). -/
inductive PyArg where
  | obj (o : PyObjRef)
  | bytes (data : List Nat)
deriving DecidableEq, Repr

/-- Observable events of one callback invocation, in execution order. -/
inductive Event where
  | acquireGIL
  | releaseGIL
  | marshal (kind : String) (r : MarshalResult)
  | callMethod (nm : String) (args : List PyArg) (r : CallResult)
  | logStderr (line : String)
  | printPendingErr (e : PyErrDetail)
  | abort
  | decref (o : PyObjRef)
deriving DecidableEq, Repr

/-- Result of one marshalling or call step: the (possibly NULL) pointer
obtained, the interpreter state afterwards, and the events emitted. -/
structure StepResult where
  ptr : Option PyObjRef
  state : PyState
  events : List Event
deriving Repr

/-- `createPythonProtobuf(record, kind)`: on success returns a fresh runtime
object; on failure returns NULL and sets the pending error indicator. -/
def createPythonProtobuf (kind : String) (r : MarshalResult) (s : PyState) :
    StepResult :=
  match r with
  | .ok obj => ⟨some obj, s, [Event.marshal kind (.ok obj)]⟩
  | .fail e => ⟨none, ⟨some e⟩, [Event.marshal kind (.fail e)]⟩

/-- `PyObject_CallMethod(impl->pythonExecutor, name, fmt, args...)`: a NULL
return always has the error indicator set; a non-NULL return may leave it
set as well. -/
def pyObjectCallMethod (nm : String) (args : List PyArg) (rc : CallResult)
    (s : PyState) : StepResult :=
  match rc with
  | .ok res => ⟨some res, s, [Event.callMethod nm args (.ok res)]⟩
  | .okWithErr res e => ⟨some res, ⟨some e⟩, [Event.callMethod nm args (.okWithErr res e)]⟩
  | .fail e => ⟨none, ⟨some e⟩, [Event.callMethod nm args (.fail e)]⟩

/-- The call followed by the `if (res == NULL) { cerr << msg << endl; }`
check every dispatcher performs. -/
def callMethodLogged (nm : String) (args : List PyArg) (rc : CallResult)
    (failMsg : String) (s : PyState) : StepResult :=
  match pyObjectCallMethod nm args rc s with
  | ⟨none, s1, evs⟩ => ⟨none, s1, evs ++ [Event.logStderr failMsg]⟩
  | ⟨some p, s1, evs⟩ => ⟨some p, s1, evs⟩

/-- The cleanup check `if (PyErr_Occurred()) { PyErr_Print(); driver->abort(); }`
(`abortOnErr = true` for every event except `error`, where the `driver->abort()`
line is absent).  `PyErr_Print` prints the pending error and clears the
indicator. -/
def errorCheck (abortOnErr : Bool) (s : PyState) : PyState × List Event :=
  match s.pendingErr with
  | some e =>
      (⟨none⟩, Event.printPendingErr e :: (if abortOnErr then [Event.abort] else []))
  | none => (s, [])

/-- `Py_XDECREF(p)`: drops the reference if the pointer is non-NULL, no-op on
NULL. -/
def pyXDecref (p : Option PyObjRef) : List Event :=
  match p with
  | some o => [Event.decref o]
  | none => []

/-- The `"s#"` conversion of `PyObject_CallMethod`: builds a byte buffer from
a pointer and a length, taking exactly `len` bytes; embedded zero bytes do not
terminate it. -/
def formatSHash (data : List Nat) (len : Nat) : List Nat := data.take len

/-- The bridge: holds `impl`, the `MesosExecutorDriverImpl*` self-token passed
as first argument to every handler invocation (the handler object
`impl->pythonExecutor` hangs off the same `impl`). -/
structure ProxyExecutor where
  impl : PyObjRef
deriving DecidableEq, Repr

/-- `ProxyExecutor::registered`: marshals ExecutorInfo, FrameworkInfo and
SlaveInfo, then — only if all three are non-NULL — calls the handler's
`registered` method; cleanup prints/aborts on a pending error and XDECREFs
all four pointers. -/
def ProxyExecutor.registered (ex : ProxyExecutor) (r1 r2 r3 : MarshalResult)
    (rc : CallResult) (s0 : PyState) : PyState × List Event :=
  match createPythonProtobuf "ExecutorInfo" r1 s0 with
  | ⟨p1, s1, ev1⟩ =>
  match createPythonProtobuf "FrameworkInfo" r2 s1 with
  | ⟨p2, s2, ev2⟩ =>
  match createPythonProtobuf "SlaveInfo" r3 s2 with
  | ⟨p3, s3, ev3⟩ =>
  match (match p1, p2, p3 with
         | some eObj, some fObj, some sObj =>
             callMethodLogged "registered"
               [PyArg.obj ex.impl, PyArg.obj eObj, PyArg.obj fObj,
                 PyArg.obj sObj]
               rc "Failed to call executor registered" s3
         | _, _, _ => ⟨none, s3, []⟩) with
  | ⟨pr, s4, ev4⟩ =>
  match errorCheck true s4 with
  | (s5, ev5) =>
    (s5,
      Event.acquireGIL ::
        (ev1 ++ ev2 ++ ev3 ++ ev4 ++ ev5 ++
          pyXDecref p1 ++ pyXDecref p2 ++ pyXDecref p3 ++
          pyXDecref pr ++ [Event.releaseGIL]))

/-- `ProxyExecutor::reregistered`: marshals SlaveInfo, calls `reregistered`. -/
def ProxyExecutor.reregistered (ex : ProxyExecutor) (r1 : MarshalResult)
    (rc : CallResult) (s0 : PyState) : PyState × List Event :=
  match createPythonProtobuf "SlaveInfo" r1 s0 with
  | ⟨p1, s1, ev1⟩ =>
  match (match p1 with
         | some sObj =>
             callMethodLogged "reregistered"
               [PyArg.obj ex.impl, PyArg.obj sObj]
               rc "Failed to call executor re-registered" s1
         | none => ⟨none, s1, []⟩) with
  | ⟨pr, s2, ev2⟩ =>
  match errorCheck true s2 with
  | (s3, ev3) =>
    (s3,
      Event.acquireGIL ::
        (ev1 ++ ev2 ++ ev3 ++ pyXDecref p1 ++ pyXDecref pr ++
          [Event.releaseGIL]))

/-- `ProxyExecutor::disconnected`: no marshalling, calls `disconnected`. -/
def ProxyExecutor.disconnected (ex : ProxyExecutor) (rc : CallResult)
    (s0 : PyState) : PyState × List Event :=
  match callMethodLogged "disconnected" [PyArg.obj ex.impl]
      rc "Failed to call executor's disconnected" s0 with
  | ⟨pr, s1, ev1⟩ =>
  match errorCheck true s1 with
  | (s2, ev2) =>
    (s2,
      Event.acquireGIL ::
        (ev1 ++ ev2 ++ pyXDecref pr ++ [Event.releaseGIL]))

/-- `ProxyExecutor::launchTask`: marshals TaskInfo, calls `launchTask`. -/
def ProxyExecutor.launchTask (ex : ProxyExecutor) (r1 : MarshalResult)
    (rc : CallResult) (s0 : PyState) : PyState × List Event :=
  match createPythonProtobuf "TaskInfo" r1 s0 with
  | ⟨p1, s1, ev1⟩ =>
  match (match p1 with
         | some tObj =>
             callMethodLogged "launchTask"
               [PyArg.obj ex.impl, PyArg.obj tObj]
               rc "Failed to call executor's launchTask" s1
         | none => ⟨none, s1, []⟩) with
  | ⟨pr, s2, ev2⟩ =>
  match errorCheck true s2 with
  | (s3, ev3) =>
    (s3,
      Event.acquireGIL ::
        (ev1 ++ ev2 ++ ev3 ++ pyXDecref p1 ++ pyXDecref pr ++
          [Event.releaseGIL]))

/-- `ProxyExecutor::killTask`: marshals TaskID, calls `killTask`. -/
def ProxyExecutor.killTask (ex : ProxyExecutor) (r1 : MarshalResult)
    (rc : CallResult) (s0 : PyState) : PyState × List Event :=
  match createPythonProtobuf "TaskID" r1 s0 with
  | ⟨p1, s1, ev1⟩ =>
  match (match p1 with
         | some tObj =>
             callMethodLogged "killTask"
               [PyArg.obj ex.impl, PyArg.obj tObj]
               rc "Failed to call executor's killTask" s1
         | none => ⟨none, s1, []⟩) with
  | ⟨pr, s2, ev2⟩ =>
  match errorCheck true s2 with
  | (s3, ev3) =>
    (s3,
      Event.acquireGIL ::
        (ev1 ++ ev2 ++ ev3 ++ pyXDecref p1 ++ pyXDecref pr ++
          [Event.releaseGIL]))

/-- `ProxyExecutor::frameworkMessage`: passes the message bytes through the
`"Os#"` format — `data.data()` with `data.length()` — and calls
`frameworkMessage`. -/
def ProxyExecutor.frameworkMessage (ex : ProxyExecutor) (data : List Nat)
    (rc : CallResult) (s0 : PyState) : PyState × List Event :=
  match callMethodLogged "frameworkMessage"
      [PyArg.obj ex.impl, PyArg.bytes (formatSHash data data.length)]
      rc "Failed to call executor's frameworkMessage" s0 with
  | ⟨pr, s1, ev1⟩ =>
  match errorCheck true s1 with
  | (s2, ev2) =>
    (s2,
      Event.acquireGIL ::
        (ev1 ++ ev2 ++ pyXDecref pr ++ [Event.releaseGIL]))

/-- `ProxyExecutor::shutdown`: no marshalling, calls `shutdown`. -/
def ProxyExecutor.shutdown (ex : ProxyExecutor) (rc : CallResult)
    (s0 : PyState) : PyState × List Event :=
  match callMethodLogged "shutdown" [PyArg.obj ex.impl]
      rc "Failed to call executor's shutdown" s0 with
  | ⟨pr, s1, ev1⟩ =>
  match errorCheck true s1 with
  | (s2, ev2) =>
    (s2,
      Event.acquireGIL ::
        (ev1 ++ ev2 ++ pyXDecref pr ++ [Event.releaseGIL]))

/-- `ProxyExecutor::error`: passes the message bytes through `"Os#"` and calls
`error`; its cleanup block has no `driver->abort()` ("No need for
driver.stop(); it should stop itself"). -/
def ProxyExecutor.error (ex : ProxyExecutor) (message : List Nat)
    (rc : CallResult) (s0 : PyState) : PyState × List Event :=
  match callMethodLogged "error"
      [PyArg.obj ex.impl, PyArg.bytes (formatSHash message message.length)]
      rc "Failed to call executor's error" s0 with
  | ⟨pr, s1, ev1⟩ =>
  match errorCheck false s1 with
  | (s2, ev2) =>
    (s2,
      Event.acquireGIL ::
        (ev1 ++ ev2 ++ pyXDecref pr ++ [Event.releaseGIL]))

/-- One driver callback together with its oracle inputs, for quantifying over
all eight event types uniformly. -/
inductive DriverCallback where
  | registered (r1 r2 r3 : MarshalResult) (rc : CallResult)
  | reregistered (r1 : MarshalResult) (rc : CallResult)
  | disconnected (rc : CallResult)
  | launchTask (r1 : MarshalResult) (rc : CallResult)
  | killTask (r1 : MarshalResult) (rc : CallResult)
  | frameworkMessage (data : List Nat) (rc : CallResult)
  | shutdown (rc : CallResult)
  | error (message : List Nat) (rc : CallResult)
deriving DecidableEq, Repr

/-- Dispatch one driver callback on the bridge. -/
def ProxyExecutor.dispatch (ex : ProxyExecutor) (c : DriverCallback)
    (s0 : PyState) : PyState × List Event :=
  match c with
  | .registered r1 r2 r3 rc => ex.registered r1 r2 r3 rc s0
  | .reregistered r1 rc => ex.reregistered r1 rc s0
  | .disconnected rc => ex.disconnected rc s0
  | .launchTask r1 rc => ex.launchTask r1 rc s0
  | .killTask r1 rc => ex.killTask r1 rc s0
  | .frameworkMessage data rc => ex.frameworkMessage data rc s0
  | .shutdown rc => ex.shutdown rc s0
  | .error message rc => ex.error message rc s0

/-- Whether the callback is the `error` event. -/
def DriverCallback.isError : DriverCallback → Bool
  | .error _ _ => true
  | _ => false

/-- The handler-call oracle input carried by the callback. -/
def DriverCallback.callResult : DriverCallback → CallResult
  | .registered _ _ _ rc => rc
  | .reregistered _ rc => rc
  | .disconnected rc => rc
  | .launchTask _ rc => rc
  | .killTask _ rc => rc
  | .frameworkMessage _ rc => rc
  | .shutdown rc => rc
  | .error _ rc => rc

/-- Whether every marshalling oracle input of the callback succeeds. -/
def DriverCallback.marshalsOk : DriverCallback → Bool
  | .registered r1 r2 r3 _ =>
      (match r1 with | .ok _ => true | .fail _ => false) &&
      (match r2 with | .ok _ => true | .fail _ => false) &&
      (match r3 with | .ok _ => true | .fail _ => false)
  | .reregistered r1 _ => (match r1 with | .ok _ => true | .fail _ => false)
  | .disconnected _ => true
  | .launchTask r1 _ => (match r1 with | .ok _ => true | .fail _ => false)
  | .killTask r1 _ => (match r1 with | .ok _ => true | .fail _ => false)
  | .frameworkMessage _ _ => true
  | .shutdown _ => true
  | .error _ _ => true

/-- The event is `driver->abort()`. -/
def Event.isAbort : Event → Bool
  | .abort => true
  | _ => false

/-- The event is a handler-method invocation. -/
def Event.isCall : Event → Bool
  | .callMethod _ _ _ => true
  | _ => false

/-- The event is a `PyErr_Print` of the pending failure. -/
def Event.isPrintErr : Event → Bool
  | .printPendingErr _ => true
  | _ => false

/-- The event is a `Py_XDECREF` of a non-NULL pointer. -/
def Event.isDecref : Event → Bool
  | .decref _ => true
  | _ => false

/-- The event is a `createPythonProtobuf` step. -/
def Event.isMarshal : Event → Bool
  | .marshal _ _ => true
  | _ => false

/-- The event is a failed `createPythonProtobuf` step. -/
def Event.isMarshalFail : Event → Bool
  | .marshal _ (.fail _) => true
  | _ => false

/-- The event is a dispatch failure: a marshalling step that failed, or a
handler invocation that returned no result or left a pending runtime
failure set. -/
def Event.isFailure : Event → Bool
  | .marshal _ (.fail _) => true
  | .callMethod _ _ (.fail _) => true
  | .callMethod _ _ (.okWithErr _ _) => true
  | _ => false

/-- Number of `driver->abort()` calls in the trace. -/
def countAbort (tr : List Event) : Nat := (tr.filter Event.isAbort).length

/-- Number of pending-failure reports (`PyErr_Print`) in the trace. -/
def countPrintErr (tr : List Event) : Nat := (tr.filter Event.isPrintErr).length

/-- Number of handler invocations in the trace. -/
def countCalls (tr : List Event) : Nat := (tr.filter Event.isCall).length

/-- Whether the trace contains a `driver->abort()` call. -/
def hasAbort (tr : List Event) : Bool := tr.any Event.isAbort

/-- Whether the trace contains a handler invocation. -/
def hasCall (tr : List Event) : Bool := tr.any Event.isCall

/-- Whether the trace contains a `cerr` diagnostic line. -/
def hasLogStderr (tr : List Event) : Bool :=
  tr.any fun e => match e with | .logStderr _ => true | _ => false

/-- Whether a dispatch failure occurred during the call. -/
def dispatchFailed (tr : List Event) : Bool := tr.any Event.isFailure

/-- Whether some marshalling step failed during the call. -/
def anyMarshalFailed (tr : List Event) : Bool := tr.any Event.isMarshalFail

/-- Some handler invocation occurs strictly after some failure event. -/
def callAfterFailure : List Event → Bool
  | [] => false
  | e :: tr => (e.isFailure && hasCall tr) || callAfterFailure tr

/-- Some marshalling step is attempted strictly after some failed
marshalling step. -/
def marshalAfterMarshalFail : List Event → Bool
  | [] => false
  | e :: tr => (e.isMarshalFail && tr.any Event.isMarshal) || marshalAfterMarshalFail tr

/-- Some `driver->abort()` occurs before the first pending-failure report
(true means the abort decision is acted on before the failure is surfaced). -/
def abortBeforeReport : List Event → Bool
  | [] => false
  | Event.printPendingErr _ :: _ => false
  | Event.abort :: _ => true
  | _ :: tr => abortBeforeReport tr

/-- Some reference release occurs strictly before some `driver->abort()`. -/
def decrefBeforeAbort : List Event → Bool
  | [] => false
  | e :: tr => (e.isDecref && hasAbort tr) || decrefBeforeAbort tr

/-- Some `driver->abort()` occurs strictly before some reference release. -/
def abortBeforeDecref : List Event → Bool
  | [] => false
  | e :: tr => (e.isAbort && tr.any Event.isDecref) || abortBeforeDecref tr

/-- Some `driver->abort()` occurs strictly after the GIL release, i.e.
deferred past the callback's locked region. -/
def abortAfterUnlock : List Event → Bool
  | [] => false
  | Event.releaseGIL :: tr => hasAbort tr
  | _ :: tr => abortAfterUnlock tr

/-- Owned references created during the call, in creation order: one per
successful marshalling step and one per non-NULL handler-invocation result. -/
def createdRefs : List Event → List PyObjRef
  | [] => []
  | Event.marshal _ (.ok o) :: tr => o :: createdRefs tr
  | Event.callMethod _ _ (.ok o) :: tr => o :: createdRefs tr
  | Event.callMethod _ _ (.okWithErr o _) :: tr => o :: createdRefs tr
  | _ :: tr => createdRefs tr

/-- References dropped (`Py_XDECREF` on a non-NULL pointer) during the call,
in release order. -/
def droppedRefs : List Event → List PyObjRef
  | [] => []
  | Event.decref o :: tr => o :: droppedRefs tr
  | _ :: tr => droppedRefs tr

/-- The first argument of each handler invocation in the trace. -/
def firstArgs : List Event → List (Option PyArg)
  | [] => []
  | Event.callMethod _ args _ :: tr => args.head? :: firstArgs tr
  | _ :: tr => firstArgs tr

/-- The byte-buffer payload of each two-argument handler invocation whose
second argument is an `"s#"` buffer. -/
def payloadArgs : List Event → List (List Nat)
  | [] => []
  | Event.callMethod _ [_, PyArg.bytes bs] _ :: tr => bs :: payloadArgs tr
  | _ :: tr => payloadArgs tr

/-- C1: for the `error` event, a dispatch failure (handler method absent,
handler raises, or the invocation returns no result) never causes
`driver->abort()` to be invoked — whatever the oracle inputs and initial
interpreter state, the trace of `ProxyExecutor::error` contains no abort. -/
theorem error_event_never_aborts (ex : ProxyExecutor) (message : List Nat)
    (rc : CallResult) (s0 : PyState) :
    hasAbort (ex.error message rc s0).2 = false := by
  obtain ⟨p⟩ := s0
  cases rc <;> cases p <;>
    simp [ProxyExecutor.error, callMethodLogged, pyObjectCallMethod, errorCheck,
      pyXDecref, hasAbort, Event.isAbort, formatSHash]

set_option maxHeartbeats 1600000 in
/-- C2: for every event type except `error`, starting from a clean
interpreter state, if a dispatch failure occurs (a marshalling step fails or
the handler invocation fails or leaves a pending runtime failure),
`driver->abort()` is invoked exactly once within that same callback
invocation and no handler dispatch is attempted after the failure. -/
theorem non_error_dispatch_failure_aborts_once (ex : ProxyExecutor)
    (c : DriverCallback) (s0 : PyState) (hclean : s0.pendingErr = none)
    (hne : c.isError = false)
    (hfail : dispatchFailed (ex.dispatch c s0).2 = true) :
    countAbort (ex.dispatch c s0).2 = 1 ∧
      callAfterFailure (ex.dispatch c s0).2 = false := by
  obtain ⟨p⟩ := s0
  replace hclean : p = none := hclean
  subst hclean
  cases c with
  | registered r1 r2 r3 rc =>
      cases r1 <;> cases r2 <;> cases r3 <;> cases rc <;>
        first
          | exact Bool.noConfusion hfail
          | exact ⟨rfl, rfl⟩
  | reregistered r1 rc =>
      cases r1 <;> cases rc <;>
        first
          | exact Bool.noConfusion hfail
          | exact ⟨rfl, rfl⟩
  | disconnected rc =>
      cases rc <;>
        first
          | exact Bool.noConfusion hfail
          | exact ⟨rfl, rfl⟩
  | launchTask r1 rc =>
      cases r1 <;> cases rc <;>
        first
          | exact Bool.noConfusion hfail
          | exact ⟨rfl, rfl⟩
  | killTask r1 rc =>
      cases r1 <;> cases rc <;>
        first
          | exact Bool.noConfusion hfail
          | exact ⟨rfl, rfl⟩
  | frameworkMessage data rc =>
      cases rc <;>
        first
          | exact Bool.noConfusion hfail
          | exact ⟨rfl, rfl⟩
  | shutdown rc =>
      cases rc <;>
        first
          | exact Bool.noConfusion hfail
          | exact ⟨rfl, rfl⟩
  | error message rc => exact Bool.noConfusion hne

/-- Witness for C2: `launchTask` whose TaskInfo marshalling fails, from a
clean state, aborts exactly once and never reaches the handler. -/
theorem non_error_dispatch_failure_aborts_once_witness :
    (PyState.mk none).pendingErr = none ∧
    (DriverCallback.launchTask (.fail ⟨"schema mismatch"⟩)
        (.ok ⟨7⟩)).isError = false ∧
    dispatchFailed ((ProxyExecutor.mk ⟨1⟩).dispatch
        (DriverCallback.launchTask (.fail ⟨"schema mismatch"⟩) (.ok ⟨7⟩))
        ⟨none⟩).2 = true ∧
    (countAbort ((ProxyExecutor.mk ⟨1⟩).dispatch
        (DriverCallback.launchTask (.fail ⟨"schema mismatch"⟩) (.ok ⟨7⟩))
        ⟨none⟩).2 = 1 ∧
      callAfterFailure ((ProxyExecutor.mk ⟨1⟩).dispatch
        (DriverCallback.launchTask (.fail ⟨"schema mismatch"⟩) (.ok ⟨7⟩))
        ⟨none⟩).2 = false) :=
  ⟨rfl, rfl, rfl,
    non_error_dispatch_failure_aborts_once (ProxyExecutor.mk ⟨1⟩)
      (DriverCallback.launchTask (.fail ⟨"schema mismatch"⟩) (.ok ⟨7⟩))
      ⟨none⟩ rfl rfl rfl⟩

/-- C3 counterexample: in `registered`, a failed ExecutorInfo marshalling
does *not* short-circuit — the FrameworkInfo and SlaveInfo marshalling steps
are still attempted after the failure (the NULL check is a single combined
check after all three `createPythonProtobuf` calls). -/
theorem registered_marshals_after_first_failure :
    marshalAfterMarshalFail
      ((ProxyExecutor.mk ⟨1⟩).registered (.fail ⟨"schema mismatch"⟩)
        (.ok ⟨2⟩) (.ok ⟨3⟩) (.ok ⟨4⟩) ⟨none⟩).2 = true := rfl

set_option maxHeartbeats 1600000 in
/-- C3 (amended): whenever any marshalling step fails, the handler method
is never invoked and `driver->abort()` is invoked exactly once — in
particular `launchTask` with a failed TaskInfo translation aborts with no
handler invocation — although in `registered` the remaining marshalling
steps are still attempted before the combined failure check. -/
theorem marshal_failure_skips_handler_and_aborts (ex : ProxyExecutor)
    (c : DriverCallback) (s0 : PyState)
    (hfail : anyMarshalFailed (ex.dispatch c s0).2 = true) :
    hasCall (ex.dispatch c s0).2 = false ∧
      countAbort (ex.dispatch c s0).2 = 1 := by
  obtain ⟨p⟩ := s0
  cases p <;> cases c with
  | registered r1 r2 r3 rc =>
      cases r1 <;> cases r2 <;> cases r3 <;> cases rc <;>
        first
          | exact Bool.noConfusion hfail
          | exact ⟨rfl, rfl⟩
  | reregistered r1 rc =>
      cases r1 <;> cases rc <;>
        first
          | exact Bool.noConfusion hfail
          | exact ⟨rfl, rfl⟩
  | disconnected rc => cases rc <;> exact Bool.noConfusion hfail
  | launchTask r1 rc =>
      cases r1 <;> cases rc <;>
        first
          | exact Bool.noConfusion hfail
          | exact ⟨rfl, rfl⟩
  | killTask r1 rc =>
      cases r1 <;> cases rc <;>
        first
          | exact Bool.noConfusion hfail
          | exact ⟨rfl, rfl⟩
  | frameworkMessage data rc => cases rc <;> exact Bool.noConfusion hfail
  | shutdown rc => cases rc <;> exact Bool.noConfusion hfail
  | error message rc => cases rc <;> exact Bool.noConfusion hfail

/-- Witness for the amended C3: `launchTask` with a TaskInfo translation
failure performs no handler invocation and aborts once. -/
theorem marshal_failure_skips_handler_and_aborts_witness :
    anyMarshalFailed ((ProxyExecutor.mk ⟨1⟩).dispatch
        (DriverCallback.launchTask (.fail ⟨"missing required field"⟩)
          (.ok ⟨7⟩)) ⟨none⟩).2 = true ∧
    (hasCall ((ProxyExecutor.mk ⟨1⟩).dispatch
        (DriverCallback.launchTask (.fail ⟨"missing required field"⟩)
          (.ok ⟨7⟩)) ⟨none⟩).2 = false ∧
      countAbort ((ProxyExecutor.mk ⟨1⟩).dispatch
        (DriverCallback.launchTask (.fail ⟨"missing required field"⟩)
          (.ok ⟨7⟩)) ⟨none⟩).2 = 1) :=
  ⟨rfl,
    marshal_failure_skips_handler_and_aborts (ProxyExecutor.mk ⟨1⟩)
      (DriverCallback.launchTask (.fail ⟨"missing required field"⟩) (.ok ⟨7⟩))
      ⟨none⟩ rfl⟩

set_option maxHeartbeats 1600000 in
/-- C4: in every dispatcher operation and for every outcome, the pending
runtime failure present at cleanup (whether left over in the initial state or
produced by a dispatch failure) is reported exactly once and cleared before
the operation returns, and no abort is acted on before that report. -/
theorem pending_failure_reported_once_before_abort (ex : ProxyExecutor)
    (c : DriverCallback) (s0 : PyState) :
    countPrintErr (ex.dispatch c s0).2 =
        cond (s0.pendingErr.isSome || dispatchFailed (ex.dispatch c s0).2) 1 0 ∧
      (ex.dispatch c s0).1.pendingErr = none ∧
      abortBeforeReport (ex.dispatch c s0).2 = false := by
  obtain ⟨p⟩ := s0
  cases p <;> cases c with
  | registered r1 r2 r3 rc =>
      cases r1 <;> cases r2 <;> cases r3 <;> cases rc <;> exact ⟨rfl, rfl, rfl⟩
  | reregistered r1 rc =>
      cases r1 <;> cases rc <;> exact ⟨rfl, rfl, rfl⟩
  | disconnected rc => cases rc <;> exact ⟨rfl, rfl, rfl⟩
  | launchTask r1 rc =>
      cases r1 <;> cases rc <;> exact ⟨rfl, rfl, rfl⟩
  | killTask r1 rc =>
      cases r1 <;> cases rc <;> exact ⟨rfl, rfl, rfl⟩
  | frameworkMessage data rc => cases rc <;> exact ⟨rfl, rfl, rfl⟩
  | shutdown rc => cases rc <;> exact ⟨rfl, rfl, rfl⟩
  | error message rc => cases rc <;> exact ⟨rfl, rfl, rfl⟩

set_option maxHeartbeats 1600000 in
/-- C5: every owned reference created during a dispatcher operation (each
successfully marshalled argument object and each non-NULL handler-invocation
result) is dropped before the operation returns, on the success path and on
every failure path alike — the released references are exactly the created
ones, in the same order. -/
theorem marshalled_objects_released (ex : ProxyExecutor) (c : DriverCallback)
    (s0 : PyState) :
    droppedRefs (ex.dispatch c s0).2 = createdRefs (ex.dispatch c s0).2 := by
  obtain ⟨p⟩ := s0
  cases p <;> cases c with
  | registered r1 r2 r3 rc =>
      cases r1 <;> cases r2 <;> cases r3 <;> cases rc <;> rfl
  | reregistered r1 rc => cases r1 <;> cases rc <;> rfl
  | disconnected rc => cases rc <;> rfl
  | launchTask r1 rc => cases r1 <;> cases rc <;> rfl
  | killTask r1 rc => cases r1 <;> cases rc <;> rfl
  | frameworkMessage data rc => cases rc <;> rfl
  | shutdown rc => cases rc <;> rfl
  | error message rc => cases rc <;> rfl

/-- C6: for the byte-payload events `frameworkMessage` and `error`, the
payload delivered to the handler through the `"s#"` conversion is a buffer of
exactly the source payload's length with every byte preserved — embedded
zero bytes included — whatever the call outcome and initial state. -/
theorem byte_payload_preserved (ex : ProxyExecutor) (data message : List Nat)
    (rcf rce : CallResult) (s0 s1 : PyState) :
    payloadArgs (ex.frameworkMessage data rcf s0).2 = [data] ∧
      payloadArgs (ex.error message rce s1).2 = [message] := by
  obtain ⟨p0⟩ := s0
  obtain ⟨p1⟩ := s1
  constructor
  · cases rcf <;> cases p0 <;>
      simp [ProxyExecutor.frameworkMessage, callMethodLogged,
        pyObjectCallMethod, errorCheck, pyXDecref, payloadArgs, formatSHash,
        List.take_length]
  · cases rce <;> cases p1 <;>
      simp [ProxyExecutor.error, callMethodLogged, pyObjectCallMethod,
        errorCheck, pyXDecref, payloadArgs, formatSHash, List.take_length]

set_option maxHeartbeats 1600000 in
/-- C7: every handler invocation, for every event type, passes the bridge's
self-token `impl` as its first argument (the marshalled arguments follow), and
since that token is the bridge's one `impl` field it is the identical
reference across all invocations on the same bridge instance. -/
theorem self_token_first_and_stable (ex : ProxyExecutor) (c : DriverCallback)
    (s0 : PyState) :
    firstArgs (ex.dispatch c s0).2 =
      List.replicate (countCalls (ex.dispatch c s0).2)
        (some (PyArg.obj ex.impl)) := by
  obtain ⟨p⟩ := s0
  cases p <;> cases c with
  | registered r1 r2 r3 rc =>
      cases r1 <;> cases r2 <;> cases r3 <;> cases rc <;> rfl
  | reregistered r1 rc => cases r1 <;> cases rc <;> rfl
  | disconnected rc => cases rc <;> rfl
  | launchTask r1 rc => cases r1 <;> cases rc <;> rfl
  | killTask r1 rc => cases r1 <;> cases rc <;> rfl
  | frameworkMessage data rc => cases rc <;> rfl
  | shutdown rc => cases rc <;> rfl
  | error message rc => cases rc <;> rfl

/-- C8 counterexample: in `killTask` with a successfully marshalled TaskID
and a failing handler invocation, `driver->abort()` is invoked *before* the
marshalled object's reference is released (the `Py_XDECREF` calls follow the
abort in the cleanup block), so the claim that abort happens after the
releases is false. -/
theorem abort_precedes_release_counterexample :
    abortBeforeDecref ((ProxyExecutor.mk ⟨1⟩).killTask (.ok ⟨2⟩)
      (.fail ⟨"no killTask method"⟩) ⟨none⟩).2 = true := rfl

set_option maxHeartbeats 1600000 in
/-- C8 (amended): when a dispatch failure triggers abort for a non-error
event, `driver->abort()` is invoked within the same callback invocation
(before the execution-context lock is released, with no deferral and no
retry) and *before* — not after — the marshalled runtime objects created for
the call are released. -/
theorem abort_in_callback_before_releases (ex : ProxyExecutor)
    (c : DriverCallback) (s0 : PyState) (hne : c.isError = false)
    (hfail : dispatchFailed (ex.dispatch c s0).2 = true) :
    hasAbort (ex.dispatch c s0).2 = true ∧
      decrefBeforeAbort (ex.dispatch c s0).2 = false ∧
      abortAfterUnlock (ex.dispatch c s0).2 = false := by
  obtain ⟨p⟩ := s0
  cases p <;> cases c with
  | registered r1 r2 r3 rc =>
      cases r1 <;> cases r2 <;> cases r3 <;> cases rc <;>
        first
          | exact Bool.noConfusion hfail
          | exact ⟨rfl, rfl, rfl⟩
  | reregistered r1 rc =>
      cases r1 <;> cases rc <;>
        first
          | exact Bool.noConfusion hfail
          | exact ⟨rfl, rfl, rfl⟩
  | disconnected rc =>
      cases rc <;>
        first
          | exact Bool.noConfusion hfail
          | exact ⟨rfl, rfl, rfl⟩
  | launchTask r1 rc =>
      cases r1 <;> cases rc <;>
        first
          | exact Bool.noConfusion hfail
          | exact ⟨rfl, rfl, rfl⟩
  | killTask r1 rc =>
      cases r1 <;> cases rc <;>
        first
          | exact Bool.noConfusion hfail
          | exact ⟨rfl, rfl, rfl⟩
  | frameworkMessage data rc =>
      cases rc <;>
        first
          | exact Bool.noConfusion hfail
          | exact ⟨rfl, rfl, rfl⟩
  | shutdown rc =>
      cases rc <;>
        first
          | exact Bool.noConfusion hfail
          | exact ⟨rfl, rfl, rfl⟩
  | error message rc => exact Bool.noConfusion hne

/-- Witness for the amended C8: `killTask` with a failing handler invocation
aborts inside the callback, before the marshalled TaskID is released. -/
theorem abort_in_callback_before_releases_witness :
    (DriverCallback.killTask (.ok ⟨2⟩)
        (.fail ⟨"no killTask method"⟩)).isError = false ∧
    dispatchFailed ((ProxyExecutor.mk ⟨1⟩).dispatch
        (DriverCallback.killTask (.ok ⟨2⟩) (.fail ⟨"no killTask method"⟩))
        ⟨none⟩).2 = true ∧
    (hasAbort ((ProxyExecutor.mk ⟨1⟩).dispatch
        (DriverCallback.killTask (.ok ⟨2⟩) (.fail ⟨"no killTask method"⟩))
        ⟨none⟩).2 = true ∧
      decrefBeforeAbort ((ProxyExecutor.mk ⟨1⟩).dispatch
        (DriverCallback.killTask (.ok ⟨2⟩) (.fail ⟨"no killTask method"⟩))
        ⟨none⟩).2 = false ∧
      abortAfterUnlock ((ProxyExecutor.mk ⟨1⟩).dispatch
        (DriverCallback.killTask (.ok ⟨2⟩) (.fail ⟨"no killTask method"⟩))
        ⟨none⟩).2 = false) :=
  ⟨rfl, rfl,
    abort_in_callback_before_releases (ProxyExecutor.mk ⟨1⟩)
      (DriverCallback.killTask (.ok ⟨2⟩) (.fail ⟨"no killTask method"⟩))
      ⟨none⟩ rfl rfl⟩

set_option maxHeartbeats 1600000 in
/-- C9: the abort/continue decision is determined solely by the pending
runtime-failure indicator at cleanup time, not by whether the handler
invocation returned a result: from a clean state with all marshalling
succeeding, if the handler call returns a result but leaves the pending
failure set, the failure is printed and — for every event except `error` —
`driver->abort()` is still invoked. -/
theorem abort_decided_by_pending_failure (ex : ProxyExecutor)
    (c : DriverCallback) (s0 : PyState) (res : PyObjRef) (e : PyErrDetail)
    (hclean : s0.pendingErr = none) (hok : c.marshalsOk = true)
    (hrc : c.callResult = .okWithErr res e) :
    countPrintErr (ex.dispatch c s0).2 = 1 ∧
      countAbort (ex.dispatch c s0).2 = cond c.isError 0 1 := by
  obtain ⟨p⟩ := s0
  replace hclean : p = none := hclean
  subst hclean
  cases c with
  | registered r1 r2 r3 rc =>
      cases r1 <;> cases r2 <;> cases r3 <;> cases rc <;>
        first
          | exact Bool.noConfusion hok
          | exact CallResult.noConfusion hrc
          | exact ⟨rfl, rfl⟩
  | reregistered r1 rc =>
      cases r1 <;> cases rc <;>
        first
          | exact Bool.noConfusion hok
          | exact CallResult.noConfusion hrc
          | exact ⟨rfl, rfl⟩
  | disconnected rc =>
      cases rc <;>
        first
          | exact CallResult.noConfusion hrc
          | exact ⟨rfl, rfl⟩
  | launchTask r1 rc =>
      cases r1 <;> cases rc <;>
        first
          | exact Bool.noConfusion hok
          | exact CallResult.noConfusion hrc
          | exact ⟨rfl, rfl⟩
  | killTask r1 rc =>
      cases r1 <;> cases rc <;>
        first
          | exact Bool.noConfusion hok
          | exact CallResult.noConfusion hrc
          | exact ⟨rfl, rfl⟩
  | frameworkMessage data rc =>
      cases rc <;>
        first
          | exact CallResult.noConfusion hrc
          | exact ⟨rfl, rfl⟩
  | shutdown rc =>
      cases rc <;>
        first
          | exact CallResult.noConfusion hrc
          | exact ⟨rfl, rfl⟩
  | error message rc =>
      cases rc <;>
        first
          | exact CallResult.noConfusion hrc
          | exact ⟨rfl, rfl⟩

/-- Witness for C9: a `frameworkMessage` handler call that returns a result
but leaves the pending failure set still results in one report and one
abort. -/
theorem abort_decided_by_pending_failure_witness :
    (PyState.mk none).pendingErr = none ∧
    (DriverCallback.frameworkMessage [65, 0, 66]
        (.okWithErr ⟨5⟩ ⟨"handler left error set"⟩)).marshalsOk = true ∧
    (DriverCallback.frameworkMessage [65, 0, 66]
        (.okWithErr ⟨5⟩ ⟨"handler left error set"⟩)).callResult =
      .okWithErr ⟨5⟩ ⟨"handler left error set"⟩ ∧
    (countPrintErr ((ProxyExecutor.mk ⟨1⟩).dispatch
        (DriverCallback.frameworkMessage [65, 0, 66]
          (.okWithErr ⟨5⟩ ⟨"handler left error set"⟩)) ⟨none⟩).2 = 1 ∧
      countAbort ((ProxyExecutor.mk ⟨1⟩).dispatch
        (DriverCallback.frameworkMessage [65, 0, 66]
          (.okWithErr ⟨5⟩ ⟨"handler left error set"⟩)) ⟨none⟩).2 =
        cond (DriverCallback.frameworkMessage [65, 0, 66]
          (.okWithErr ⟨5⟩ ⟨"handler left error set"⟩)).isError 0 1) :=
  ⟨rfl, rfl, rfl,
    abort_decided_by_pending_failure (ProxyExecutor.mk ⟨1⟩)
      (DriverCallback.frameworkMessage [65, 0, 66]
        (.okWithErr ⟨5⟩ ⟨"handler left error set"⟩))
      ⟨none⟩ ⟨5⟩ ⟨"handler left error set"⟩ rfl rfl rfl⟩

set_option maxHeartbeats 1600000 in
/-- C10: a fully successful dispatch — every marshalling step produces an
object, the handler invocation returns a result, and no pending failure is
set at cleanup — returns normally: no `driver->abort()`, no pending-failure
report, no `cerr` diagnostic line, and a clean final interpreter state. -/
theorem successful_dispatch_silent (ex : ProxyExecutor) (c : DriverCallback)
    (s0 : PyState) (res : PyObjRef) (hclean : s0.pendingErr = none)
    (hok : c.marshalsOk = true) (hrc : c.callResult = .ok res) :
    hasAbort (ex.dispatch c s0).2 = false ∧
      countPrintErr (ex.dispatch c s0).2 = 0 ∧
      hasLogStderr (ex.dispatch c s0).2 = false ∧
      (ex.dispatch c s0).1.pendingErr = none := by
  obtain ⟨p⟩ := s0
  replace hclean : p = none := hclean
  subst hclean
  cases c with
  | registered r1 r2 r3 rc =>
      cases r1 <;> cases r2 <;> cases r3 <;> cases rc <;>
        first
          | exact Bool.noConfusion hok
          | exact CallResult.noConfusion hrc
          | exact ⟨rfl, rfl, rfl, rfl⟩
  | reregistered r1 rc =>
      cases r1 <;> cases rc <;>
        first
          | exact Bool.noConfusion hok
          | exact CallResult.noConfusion hrc
          | exact ⟨rfl, rfl, rfl, rfl⟩
  | disconnected rc =>
      cases rc <;>
        first
          | exact CallResult.noConfusion hrc
          | exact ⟨rfl, rfl, rfl, rfl⟩
  | launchTask r1 rc =>
      cases r1 <;> cases rc <;>
        first
          | exact Bool.noConfusion hok
          | exact CallResult.noConfusion hrc
          | exact ⟨rfl, rfl, rfl, rfl⟩
  | killTask r1 rc =>
      cases r1 <;> cases rc <;>
        first
          | exact Bool.noConfusion hok
          | exact CallResult.noConfusion hrc
          | exact ⟨rfl, rfl, rfl, rfl⟩
  | frameworkMessage data rc =>
      cases rc <;>
        first
          | exact CallResult.noConfusion hrc
          | exact ⟨rfl, rfl, rfl, rfl⟩
  | shutdown rc =>
      cases rc <;>
        first
          | exact CallResult.noConfusion hrc
          | exact ⟨rfl, rfl, rfl, rfl⟩
  | error message rc =>
      cases rc <;>
        first
          | exact CallResult.noConfusion hrc
          | exact ⟨rfl, rfl, rfl, rfl⟩

/-- Witness for C10: a fully successful `registered` dispatch aborts nothing
and prints nothing. -/
theorem successful_dispatch_silent_witness :
    (PyState.mk none).pendingErr = none ∧
    (DriverCallback.registered (.ok ⟨2⟩) (.ok ⟨3⟩) (.ok ⟨4⟩)
        (.ok ⟨5⟩)).marshalsOk = true ∧
    (DriverCallback.registered (.ok ⟨2⟩) (.ok ⟨3⟩) (.ok ⟨4⟩)
        (.ok ⟨5⟩)).callResult = .ok ⟨5⟩ ∧
    (hasAbort ((ProxyExecutor.mk ⟨1⟩).dispatch
        (DriverCallback.registered (.ok ⟨2⟩) (.ok ⟨3⟩) (.ok ⟨4⟩) (.ok ⟨5⟩))
        ⟨none⟩).2 = false ∧
      countPrintErr ((ProxyExecutor.mk ⟨1⟩).dispatch
        (DriverCallback.registered (.ok ⟨2⟩) (.ok ⟨3⟩) (.ok ⟨4⟩) (.ok ⟨5⟩))
        ⟨none⟩).2 = 0 ∧
      hasLogStderr ((ProxyExecutor.mk ⟨1⟩).dispatch
        (DriverCallback.registered (.ok ⟨2⟩) (.ok ⟨3⟩) (.ok ⟨4⟩) (.ok ⟨5⟩))
        ⟨none⟩).2 = false ∧
      ((ProxyExecutor.mk ⟨1⟩).dispatch
        (DriverCallback.registered (.ok ⟨2⟩) (.ok ⟨3⟩) (.ok ⟨4⟩) (.ok ⟨5⟩))
        ⟨none⟩).1.pendingErr = none) :=
  ⟨rfl, rfl, rfl,
    successful_dispatch_silent (ProxyExecutor.mk ⟨1⟩)
      (DriverCallback.registered (.ok ⟨2⟩) (.ok ⟨3⟩) (.ok ⟨4⟩) (.ok ⟨5⟩))
      ⟨none⟩ ⟨5⟩ rfl rfl rfl⟩

end MesosProxyExecutor
